import Mathlib

/-!
# Verification of the cohesive granular pair style `PairCFM`

Shallow embedding of `src/src/pair_gran_cfm.cpp` (LAMMPS pair style
`gran/cfm`).  The per-pair body of `PairCFM::compute` (lines 176-411),
the `settings` parser (lines 443-466) and the history-slot addressing
(line 189 of `compute` together with the fix allocation in
`init_style`, line 519) are translated into pure functions over `ℚ`.

The C code works on `double`; the model uses exact rationals.  The two
library functions `sqrt` and the constant `M_PI` are irrational, so the
model abstracts them as a `MathModel` parameter: `M.sqrt : ℚ → ℚ` stands
for C `sqrt` and `M.piv : ℚ` for `M_PI`.  Theorems that depend on `sqrt`
being a genuine square root state that fact as an explicit hypothesis at
the point where it is used; witnesses instantiate `M.sqrt` with a
function that is exact on every value the run actually queries.
Division by zero is total (`q / 0 = 0`) in the model, as in Mathlib;
statements about division-by-zero are therefore phrased as statements
about the divisors themselves.
-/

/-- 3-component vector of rationals (models a `double[3]`). -/
structure Vec3 where
  x : ℚ
  y : ℚ
  z : ℚ
deriving DecidableEq

def Vec3.zero : Vec3 := ⟨0, 0, 0⟩

def Vec3.add (a b : Vec3) : Vec3 := ⟨a.x + b.x, a.y + b.y, a.z + b.z⟩

def Vec3.sub (a b : Vec3) : Vec3 := ⟨a.x - b.x, a.y - b.y, a.z - b.z⟩

def Vec3.dot (a b : Vec3) : ℚ := a.x * b.x + a.y * b.y + a.z * b.z

def Vec3.smul (t : ℚ) (a : Vec3) : Vec3 := ⟨t * a.x, t * a.y, t * a.z⟩

instance : Neg Vec3 := ⟨fun a => ⟨-a.x, -a.y, -a.z⟩⟩

/-- Abstraction of the two irrational ingredients of the C code:
`sqrt` from `<math.h>` and the constant `M_PI`. -/
structure MathModel where
  sqrt : ℚ → ℚ
  piv : ℚ

/-- The global coefficients set by `PairCFM::settings` plus the timestep
`dt` (read from `update->dt` in `init_style`): `kn`, `kt`, `gamman`,
`gammat`, `xmu`, `_t` (tensile strength), `_c` (cohesive shear
strength), `_enlargeFactor`, `dt`. -/
structure Config where
  kn : ℚ
  kt : ℚ
  gamman : ℚ
  gammat : ℚ
  xmu : ℚ
  t : ℚ
  c : ℚ
  enlargeFactor : ℚ
  dt : ℚ
deriving DecidableEq

/-- The dense per-id-pair tables created on timestep 0 in
`PairCFM::compute` (lines 144-160): `is_cohesive`, `_Dinitial`,
`_Dtensile`, all indexed by `tag-1` in both directions. -/
structure GState where
  coh : Nat → Nat → Bool
  Din : Nat → Nat → ℚ
  Dtn : Nat → Nat → ℚ

/-- One per-pair record of the neighbor-history fix as the `compute`
body reads and writes it through `_history` and `touch[jj]`:
`_history[0..2]` (shear displacement), `_history[5]` (tensile-break
counter), `_history[6]` (shear-break counter), and the touch flag.
The flat-address aliasing of these scalars across neighbor slots is
modelled separately (`historyAddr` below). -/
structure Slot where
  s0 : ℚ
  s1 : ℚ
  s2 : ℚ
  h5 : ℚ
  h6 : ℚ
  touch : Bool
deriving DecidableEq

/-- Per-pair per-step kinematic input of the `compute` inner loop:
tags (`atom->tag[i]`, `atom->tag[j]`), positions, velocities, angular
velocities, radii, masses (`rmass`, already overridden by
`mass_rigid` when a rigid fix is present), and the freeze-group
membership bits. -/
structure PairIn where
  id1 : Nat
  id2 : Nat
  xi : Vec3
  xj : Vec3
  vi : Vec3
  vj : Vec3
  oi : Vec3
  oj : Vec3
  radi : ℚ
  radj : ℚ
  mi : ℚ
  mj : ℚ
  fri : Bool
  frj : Bool
deriving DecidableEq

/-- Everything the per-pair body reads that is fixed during one pair
evaluation: math model, coefficients, and the pair input. -/
structure Ctx where
  M : MathModel
  cfg : Config
  inp : PairIn

/-- `delx, dely, delz` (lines 181-183). -/
def Ctx.del (c : Ctx) : Vec3 := Vec3.sub c.inp.xi c.inp.xj

/-- `rsq = delx*delx + dely*dely + delz*delz` (line 184). -/
def Ctx.rsq (c : Ctx) : ℚ := Vec3.dot c.del c.del

/-- `r = sqrt(rsq)` (line 187). -/
def Ctx.r (c : Ctx) : ℚ := c.M.sqrt c.rsq

/-- `radsum = radi + radj` (line 186). -/
def Ctx.radsum (c : Ctx) : ℚ := c.inp.radi + c.inp.radj

/-- `radmin = fmin(radj,radi)` (line 195). -/
def Ctx.radmin (c : Ctx) : ℚ := min c.inp.radj c.inp.radi

/-- `rinv = 1.0/r` (line 258). -/
def Ctx.rinv (c : Ctx) : ℚ := 1 / c.r

/-- `rsqinv = 1.0/rsq` (line 259). -/
def Ctx.rsqinv (c : Ctx) : ℚ := 1 / c.rsq

/-- Write the same value into both directions of a Bool table, as the
paired assignments `is_cohesive[ID1-1][ID2-1] = v;
is_cohesive[ID2-1][ID1-1] = v;` do. -/
def setSymB (T : Nat → Nat → Bool) (p q : Nat) (v : Bool) : Nat → Nat → Bool :=
  fun a b => if (a = p ∧ b = q) ∨ (a = q ∧ b = p) then v else T a b

/-- Write the same value into both directions of a rational table. -/
def setSymQ (T : Nat → Nat → ℚ) (p q : Nat) (v : ℚ) : Nat → Nat → ℚ :=
  fun a b => if (a = p ∧ b = q) ∨ (a = q ∧ b = p) then v else T a b

/-- Clear the bond flag in both directions (lines 251-252 / 368-369). -/
def unbond (gs : GState) (p q : Nat) : GState :=
  { gs with coh := setSymB gs.coh p q false }

/-- Result of one phase of the per-pair body: updated tables, updated
history slot, and whether `_ignore` has been set to `-1`. -/
structure PhaseOut where
  gs : GState
  sl : Slot
  ign : Bool

/-- Bond-formation pass, lines 199-218 of `compute` (executed only when
`update->ntimestep < 1`): within the enlarged threshold the pair is
marked cohesive and `_Dinitial`, `_Dtensile` are recorded in both
directions; otherwise the pair is marked non-cohesive, both geometry
tables are zeroed, the touch flag is cleared and `_ignore = -1`. -/
def formation (c : Ctx) (gs : GState) (sl : Slot) : PhaseOut :=
  if c.r ≤ c.radsum + (c.cfg.enlargeFactor - 1) * c.radmin then
    { gs := { coh := setSymB gs.coh (c.inp.id1 - 1) (c.inp.id2 - 1) true
              Din := setSymQ gs.Din (c.inp.id1 - 1) (c.inp.id2 - 1) (c.radsum - c.r)
              Dtn := setSymQ gs.Dtn (c.inp.id1 - 1) (c.inp.id2 - 1)
                       (c.M.piv * c.radmin * c.cfg.t / c.cfg.kn) }
      sl := sl
      ign := false }
  else
    { gs := { coh := setSymB gs.coh (c.inp.id1 - 1) (c.inp.id2 - 1) false
              Din := setSymQ gs.Din (c.inp.id1 - 1) (c.inp.id2 - 1) 0
              Dtn := setSymQ gs.Dtn (c.inp.id1 - 1) (c.inp.id2 - 1) 0 }
      sl := { sl with touch := false }
      ign := true }

/-- `_D = (radsum - r) - _Dinitial[ID1-1][ID2-1]` (line 232). -/
def DOf (c : Ctx) (gs : GState) : ℚ :=
  (c.radsum - c.r) - gs.Din (c.inp.id1 - 1) (c.inp.id2 - 1)

/-- Lines 220-230 of `compute`: a non-cohesive pair with `r > radsum`
is unset (touch flag cleared, shear zeroed, `_ignore = -1`). -/
def preSep (c : Ctx) (gs : GState) (sl : Slot) (ign : Bool) : PhaseOut :=
  if gs.coh (c.inp.id1 - 1) (c.inp.id2 - 1) = false ∧ c.r > c.radsum then
    { gs := gs, sl := { sl with s0 := 0, s1 := 0, s2 := 0, touch := false }, ign := true }
  else
    { gs := gs, sl := sl, ign := ign }

/-- Lines 220-255 of `compute`: the separation unset followed by the
two checks under `_D < 0` — a non-cohesive pair is unset again, and a
cohesive pair with `fabs(_D) >= _Dtensile` suffers tensile failure
(`_history[5] += 1`, bond cleared in both directions, `_ignore = -1`).
Note `_D` and both table reads use the state as of line 232, which the
separation unset does not modify. -/
def preForce (c : Ctx) (gs : GState) (sl : Slot) (ign : Bool) : PhaseOut :=
  if DOf c gs < 0 then
    if gs.coh (c.inp.id1 - 1) (c.inp.id2 - 1) = false then
      { gs := gs
        sl := { (preSep c gs sl ign).sl with s0 := 0, s1 := 0, s2 := 0, touch := false }
        ign := true }
    else if |DOf c gs| ≥ gs.Dtn (c.inp.id1 - 1) (c.inp.id2 - 1) then
      { gs := unbond gs (c.inp.id1 - 1) (c.inp.id2 - 1)
        sl := { (preSep c gs sl ign).sl with s0 := 0, s1 := 0, s2 := 0, h5 := (preSep c gs sl ign).sl.h5 + 1, touch := false }
        ign := true }
    else preSep c gs sl ign
  else preSep c gs sl ign

/-- `vr = v[i] - v[j]` (lines 263-265). -/
def Ctx.vr (c : Ctx) : Vec3 := Vec3.sub c.inp.vi c.inp.vj

/-- `vnnr = vr1*delx + vr2*dely + vr3*delz` (line 269). -/
def Ctx.vnnr (c : Ctx) : ℚ := Vec3.dot c.vr c.del

/-- `vn_k = del_k * vnnr * rsqinv` (lines 270-272). -/
def Ctx.vn (c : Ctx) : Vec3 := Vec3.smul (c.vnnr * c.rsqinv) c.del

/-- `vt = vr - vn` (lines 276-278). -/
def Ctx.vt (c : Ctx) : Vec3 := Vec3.sub c.vr c.vn

/-- `wr_k = (radi*omega[i][k] + radj*omega[j][k]) * rinv` (lines 282-284). -/
def Ctx.wr (c : Ctx) : Vec3 :=
  Vec3.smul c.rinv (Vec3.add (Vec3.smul c.inp.radi c.inp.oi) (Vec3.smul c.inp.radj c.inp.oj))

/-- `meff` (lines 290-299): harmonic mean of the (possibly
rigid-overridden) masses, collapsed to the other particle's mass when
one side is in the freeze group.  The two `if` statements of the code
run in order, so a frozen `j` wins over a frozen `i`. -/
def Ctx.meff (c : Ctx) : ℚ :=
  if c.inp.frj then c.inp.mi
  else if c.inp.fri then c.inp.mj
  else c.inp.mi * c.inp.mj / (c.inp.mi + c.inp.mj)

/-- `damp = meff*gamman*vnnr*rsqinv` (line 303). -/
def Ctx.damp (c : Ctx) : ℚ := c.meff * c.cfg.gamman * c.vnnr * c.rsqinv

/-- `ccel = kn*(_D)*rinv - damp` (line 304). -/
def ccelOf (c : Ctx) (gs : GState) : ℚ := c.cfg.kn * DOf c gs * c.rinv - c.damp

/-- `vtr` (lines 308-310): tangential relative velocity at the contact,
`vtr1 = vt1 - (delz*wr2 - dely*wr3)` etc. -/
def Ctx.vtr (c : Ctx) : Vec3 :=
  ⟨c.vt.x - (c.del.z * c.wr.y - c.del.y * c.wr.z),
   c.vt.y - (c.del.x * c.wr.z - c.del.z * c.wr.x),
   c.vt.z - (c.del.y * c.wr.x - c.del.x * c.wr.y)⟩

/-- Shear displacement after integration, `_history[k] += vtr_k*dt`
(lines 318-320). -/
def shearInt (c : Ctx) (sl : Slot) : Vec3 :=
  ⟨sl.s0 + c.vtr.x * c.cfg.dt, sl.s1 + c.vtr.y * c.cfg.dt, sl.s2 + c.vtr.z * c.cfg.dt⟩

/-- `shrmag = sqrt(...)` of the integrated shear (lines 322-323). -/
def shrmagOf (c : Ctx) (sl : Slot) : ℚ :=
  c.M.sqrt (Vec3.dot (shearInt c sl) (shearInt c sl))

/-- `rsht` (lines 327-328). -/
def rshtOf (c : Ctx) (sl : Slot) : ℚ := Vec3.dot (shearInt c sl) c.del * c.rsqinv

/-- Shear displacement after the rotation step `_history[k] -= rsht*del_k`
(lines 330-332). -/
def shearRot (c : Ctx) (sl : Slot) : Vec3 :=
  Vec3.sub (shearInt c sl) (Vec3.smul (rshtOf c sl) c.del)

/-- Tangential force before rescaling,
`fs_k = - (kt*_history[k] + meff*gammat*vtr_k)` (lines 336-338). -/
def fsPreV (c : Ctx) (sl : Slot) : Vec3 :=
  ⟨-(c.cfg.kt * (shearRot c sl).x + c.meff * c.cfg.gammat * c.vtr.x),
   -(c.cfg.kt * (shearRot c sl).y + c.meff * c.cfg.gammat * c.vtr.y),
   -(c.cfg.kt * (shearRot c sl).z + c.meff * c.cfg.gammat * c.vtr.z)⟩

/-- Friction/cohesion force limit `fn` (lines 342-349):
`xmu*fabs(ccel*r)` plus, for a cohesive pair, the bonus
`_maxShearForce = M_PI * radmin * _c`. -/
def fnOf (c : Ctx) (gs : GState) : ℚ :=
  if gs.coh (c.inp.id1 - 1) (c.inp.id2 - 1) then
    c.cfg.xmu * |ccelOf c gs * c.r| + c.M.piv * c.radmin * c.cfg.c
  else
    c.cfg.xmu * |ccelOf c gs * c.r|

/-- `fs = sqrt(fs1*fs1 + fs2*fs2 + fs3*fs3)` (line 351). -/
def fsMagOf (c : Ctx) (sl : Slot) : ℚ :=
  c.M.sqrt (Vec3.dot (fsPreV c sl) (fsPreV c sl))

/-- The three quantities `meff*gammat*vtr_k/kt` that appear inside the
rescaling formula (lines 355-360). -/
def Ctx.dco (c : Ctx) : Vec3 :=
  ⟨c.meff * c.cfg.gammat * c.vtr.x / c.cfg.kt,
   c.meff * c.cfg.gammat * c.vtr.y / c.cfg.kt,
   c.meff * c.cfg.gammat * c.vtr.z / c.cfg.kt⟩

/-- Output of the rescaling block, lines 353-380: final shear
displacement, final tangential force, whether the cohesive shear-failure
path fired (`_history[6] += 1` and unbonding), and whether the
fully-separated sub-path additionally zeroed everything and cleared the
touch flag. -/
structure RescaleOut where
  sh : Vec3
  fsv : Vec3
  broke : Bool
  separated : Bool
deriving DecidableEq

/-- Lines 353-380 of `compute`.  Arguments: the cohesive flag as read at
line 342, `rsq`, `radsum`, `shrmag`, `fn`, `fs`, the rotated shear
displacement `a`, the unrescaled tangential force `f`, and the damping
offsets `d` (`meff*gammat*vtr_k/kt`). -/
def rescaleStep (cohes : Bool) (rsq radsum shrmag fn fs : ℚ) (a f d : Vec3) : RescaleOut :=
  if fs ≥ fn then
    let b : Vec3 :=
      if shrmag ≠ 0 then
        ⟨fn / fs * (a.x + d.x) - d.x, fn / fs * (a.y + d.y) - d.y, fn / fs * (a.z + d.z) - d.z⟩
      else a
    let g : Vec3 :=
      if shrmag ≠ 0 then ⟨f.x * (fn / fs), f.y * (fn / fs), f.z * (fn / fs)⟩
      else Vec3.zero
    if cohes then
      if rsq > radsum * radsum then ⟨Vec3.zero, Vec3.zero, true, true⟩
      else ⟨b, g, true, false⟩
    else ⟨b, g, false, false⟩
  else ⟨a, f, false, false⟩

/-- The rescaling block applied to the state of the current pair. -/
def rescaleOf (c : Ctx) (gs : GState) (sl : Slot) : RescaleOut :=
  rescaleStep (gs.coh (c.inp.id1 - 1) (c.inp.id2 - 1)) c.rsq c.radsum
    (shrmagOf c sl) (fnOf c gs) (fsMagOf c sl) (shearRot c sl) (fsPreV c sl) c.dco

/-- `tor_k = rinv * (del × fs)_k` (lines 391-393), for a given final
tangential force vector. -/
def torVec (c : Ctx) (fsv : Vec3) : Vec3 :=
  ⟨c.rinv * (c.del.y * fsv.z - c.del.z * fsv.y),
   c.rinv * (c.del.z * fsv.x - c.del.x * fsv.z),
   c.rinv * (c.del.x * fsv.y - c.del.y * fsv.x)⟩

/-- Force/torque deltas emitted by one pair evaluation, plus the final
tangential force and the diagnostic scalars.  `evaluated = false`
means `_ignore == -1`, i.e. the force block was skipped. -/
structure POut where
  evaluated : Bool
  fi : Vec3
  fj : Vec3
  ti : Vec3
  tj : Vec3
  fs : Vec3
  fn : ℚ
  ccel : ℚ
deriving DecidableEq

/-- The all-zero output of a skipped pair. -/
def ignoredOut : POut :=
  { evaluated := false, fi := Vec3.zero, fj := Vec3.zero, ti := Vec3.zero, tj := Vec3.zero
    fs := Vec3.zero, fn := 0, ccel := 0 }

/-- Result of the whole per-pair body. -/
structure StepOut where
  gs : GState
  sl : Slot
  out : POut

/-- The force-evaluation block, lines 257-409 of `compute` (entered when
`_ignore != -1`).  `ownsJ` models `newton_pair || j < nlocal`: the
reaction on `j` is accumulated only when it holds. -/
def forceEval (c : Ctx) (ownsJ : Bool) (gs : GState) (sl : Slot) : StepOut :=
  let R := rescaleOf c gs sl
  let fvec : Vec3 :=
    ⟨c.del.x * ccelOf c gs + R.fsv.x,
     c.del.y * ccelOf c gs + R.fsv.y,
     c.del.z * ccelOf c gs + R.fsv.z⟩
  let tor := torVec c R.fsv
  { gs := if R.broke then unbond gs (c.inp.id1 - 1) (c.inp.id2 - 1) else gs
    sl := { s0 := R.sh.x, s1 := R.sh.y, s2 := R.sh.z
            h5 := sl.h5
            h6 := if R.broke then sl.h6 + 1 else sl.h6
            touch := !R.separated }
    out := { evaluated := true
             fi := fvec
             fj := if ownsJ then -fvec else Vec3.zero
             ti := ⟨-(c.inp.radi * tor.x), -(c.inp.radi * tor.y), -(c.inp.radi * tor.z)⟩
             tj := if ownsJ then ⟨-(c.inp.radj * tor.x), -(c.inp.radj * tor.y), -(c.inp.radj * tor.z)⟩
                   else Vec3.zero
             fs := R.fsv
             fn := fnOf c gs
             ccel := ccelOf c gs } }

/-- One full execution of the per-pair body of `PairCFM::compute`
(lines 176-411) for one `(i, jj)` neighbor slot: formation pass when
`isFirst` (i.e. `update->ntimestep < 1`), then the
deactivation/tensile-failure checks, then, unless `_ignore == -1`,
the force evaluation.  The trailing statement `_history[4] == 1.0;`
(line 410) is a comparison, not an assignment, and has no effect. -/
def computePair (c : Ctx) (isFirst ownsJ : Bool) (gs : GState) (sl : Slot) : StepOut :=
  let ph0 := if isFirst then formation c gs sl else { gs := gs, sl := sl, ign := false }
  let ph1 := preForce c ph0.gs ph0.sl ph0.ign
  if ph1.ign then { gs := ph1.gs, sl := ph1.sl, out := ignoredOut }
  else forceEval c ownsJ ph1.gs ph1.sl

/-- Fold the per-pair body over a list of later, non-formation steps
(`update->ntimestep ≥ 1`), each with its own kinematic input and its own
history slot, threading the global bond tables through. -/
def evolve (L : List (Ctx × Slot)) (gs : GState) : GState :=
  L.foldl (fun g p => (computePair p.1 false true g p.2).gs) gs

/-- The numeric arguments handed to `PairCFM::settings` (lines 443-466)
after string parsing: `arg[1]` (`kt`) and `arg[3]` (`gammat`) may be the
literal string `NULL`, modelled as `none`. -/
structure SettingsVals where
  kn : ℚ
  ktArg : Option ℚ
  gamman : ℚ
  gammatArg : Option ℚ
  xmu : ℚ
  dampflag : Int
  t : ℚ
  c : ℚ
  enlargeFactor : ℚ
deriving DecidableEq

/-- The member variables `settings` leaves behind on success. -/
structure Settings where
  kn : ℚ
  kt : ℚ
  gamman : ℚ
  gammat : ℚ
  xmu : ℚ
  dampflag : Int
  t : ℚ
  c : ℚ
  enlargeFactor : ℚ
deriving DecidableEq

/-- Effective tangential stiffness: the supplied `arg[1]`, or
`kt = kn * 2.0/7.0` when `NULL` was given (line 448). -/
def ktEff (v : SettingsVals) : ℚ :=
  match v.ktArg with
  | none => v.kn * 2 / 7
  | some q => q

/-- Effective tangential damping: the supplied `arg[3]` (or
`gammat = 0.5 * gamman` when `NULL` was given, line 452), then forced
to `0` by `if (dampflag == 0) gammat = 0.0;` (line 457), which runs
before the range validation. -/
def gtEff (v : SettingsVals) : ℚ :=
  if v.dampflag = 0 then 0
  else match v.gammatArg with
    | none => 1 / 2 * v.gamman
    | some q => q

/-- `PairCFM::settings` (lines 443-466).  `none` models the fatal
`error->all(FLERR,"Illegal pair_style command")`, raised either for a
wrong argument count (line 445) or by the final range check
(lines 463-465), which tests the member values after the `NULL`
defaults and the `dampflag == 0` zeroing have been applied. -/
def settingsRun (narg : Nat) (v : SettingsVals) : Option Settings :=
  if narg ≠ 9 then none
  else if v.kn < 0 ∨ ktEff v < 0 ∨ v.gamman < 0 ∨ gtEff v < 0 ∨
      v.xmu < 0 ∨ v.xmu > 10000 ∨ v.dampflag < 0 ∨ v.c < 0 ∨ v.t < 0 ∨
      v.enlargeFactor < 0 ∨ v.dampflag > 1 then
    none
  else
    some { kn := v.kn, kt := ktEff v, gamman := v.gamman, gammat := gtEff v, xmu := v.xmu
           dampflag := v.dampflag, t := v.t, c := v.c, enlargeFactor := v.enlargeFactor }

/-- Flat offset inside `allshear = firstshear[i]` at which `compute`
addresses scalar `k` of neighbor slot `jj`: line 189 sets
`_history = &allshear[3*jj]` and the body then reads and writes
`_history[0] .. _history[6]`. -/
def historyAddr (jj k : Nat) : Nat := 3 * jj + k

/-- Number of scalars allocated per neighbor slot by `init_style`:
line 519 creates the `NEIGH_HISTORY` fix with `dnum = 7`. -/
def slotAllocSize : Nat := 7

/-- Flat offset of scalar `k` of slot `jj` under the allocated 7-wide
layout that the comment at lines 189-190 describes. -/
def allocAddr (jj k : Nat) : Nat := slotAllocSize * jj + k

/-- Symmetry of the cohesion table as a predicate on the global state. -/
def SymmCoh (gs : GState) : Prop := ∀ a b, gs.coh a b = gs.coh b a

/-! ## Concrete instances used by witnesses and counterexamples

Each `ex…` definition fixes one fully concrete run of the model; the
square-root tables are exact on every value the corresponding run
queries. -/

/-- A square-root table that is exact on the perfect squares the
examples use. -/
def sqrtTable : ℚ → ℚ :=
  fun q => if q = 0 then 0 else if q = 1 then 1 else if q = 4 then 2
           else if q = 9 then 3 else if q = 25 / 4 then 5 / 2 else 0

def exM : MathModel := { sqrt := sqrtTable, piv := 22 / 7 }

/-- Coefficients for the formation example: `enlargeFactor = 3/2`. -/
def exCfgForm : Config :=
  { kn := 2, kt := 1, gamman := 0, gammat := 0, xmu := 10, t := 7, c := 0
    enlargeFactor := 3 / 2, dt := 1 }

/-- Two unit-radius particles whose centers are exactly at the enlarged
bonding threshold `radsum + (enlargeFactor-1)*radmin = 5/2`. -/
def exInpForm : PairIn :=
  { id1 := 1, id2 := 2
    xi := ⟨5 / 2, 0, 0⟩, xj := Vec3.zero
    vi := Vec3.zero, vj := Vec3.zero, oi := Vec3.zero, oj := Vec3.zero
    radi := 1, radj := 1, mi := 1, mj := 1, fri := false, frj := false }

def exGsEmpty : GState :=
  { coh := fun _ _ => false, Din := fun _ _ => 0, Dtn := fun _ _ => 0 }

def exSlZero : Slot := { s0 := 0, s1 := 0, s2 := 0, h5 := 0, h6 := 0, touch := true }

def exCtxForm : Ctx := { M := exM, cfg := exCfgForm, inp := exInpForm }

/-- Bonded pair pulled apart to distance `3` with `radsum = 2`:
`_D = -1`, beyond the tensile limit `1/2`. -/
def exInpTens : PairIn :=
  { id1 := 1, id2 := 2
    xi := ⟨3, 0, 0⟩, xj := Vec3.zero
    vi := Vec3.zero, vj := Vec3.zero, oi := Vec3.zero, oj := Vec3.zero
    radi := 1, radj := 1, mi := 1, mj := 1, fri := false, frj := false }

def exGsBonded : GState :=
  { coh := fun _ _ => true, Din := fun _ _ => 0, Dtn := fun _ _ => 1 / 2 }

def exCtxTens : Ctx := { M := exM, cfg := exCfgForm, inp := exInpTens }

/-- Coincident centers: `rsq = 0`, `r = sqrt(0) = 0`. -/
def exInpZero : PairIn :=
  { id1 := 1, id2 := 2
    xi := Vec3.zero, xj := Vec3.zero
    vi := Vec3.zero, vj := Vec3.zero, oi := Vec3.zero, oj := Vec3.zero
    radi := 1, radj := 1, mi := 1, mj := 1, fri := false, frj := false }

/-- Coefficients with `enlargeFactor = 1`. -/
def exCfgZero : Config :=
  { kn := 2, kt := 1, gamman := 0, gammat := 0, xmu := 10, t := 7, c := 0
    enlargeFactor := 1, dt := 1 }

def exCtxZero : Ctx := { M := exM, cfg := exCfgZero, inp := exInpZero }

/-- Overlapping unbonded contact with stored shear `(0,1,0)`:
`rsq = 1`, `radsum = 2`, `_D = 1`. -/
def exInpShear : PairIn :=
  { id1 := 1, id2 := 2
    xi := ⟨1, 0, 0⟩, xj := Vec3.zero
    vi := Vec3.zero, vj := Vec3.zero, oi := Vec3.zero, oj := Vec3.zero
    radi := 1, radj := 1, mi := 1, mj := 1, fri := false, frj := false }

def exSlShear : Slot := { s0 := 0, s1 := 1, s2 := 0, h5 := 0, h6 := 0, touch := true }

/-- Coefficients with `xmu = 0`, so the Coulomb limit is `0` and the
stored shear overloads it. -/
def exCfgMuZero : Config :=
  { kn := 1, kt := 1, gamman := 0, gammat := 0, xmu := 0, t := 0, c := 0
    enlargeFactor := 1, dt := 1 }

def exCtxOver : Ctx := { M := exM, cfg := exCfgMuZero, inp := exInpShear }

/-- Same contact with `xmu = 10`: the limit is `20` and the stored shear
stays strictly below it. -/
def exCfgMuTen : Config :=
  { kn := 1, kt := 1, gamman := 0, gammat := 0, xmu := 10, t := 0, c := 0
    enlargeFactor := 1, dt := 1 }

def exCtxBelow : Ctx := { M := exM, cfg := exCfgMuTen, inp := exInpShear }

/-- Torque example: radii `3/2`, centers `2` apart, stored shear
`(0,1,0)`, no velocities, `xmu` large enough that no rescaling fires. -/
def exInpTor : PairIn :=
  { id1 := 1, id2 := 2
    xi := ⟨2, 0, 0⟩, xj := Vec3.zero
    vi := Vec3.zero, vj := Vec3.zero, oi := Vec3.zero, oj := Vec3.zero
    radi := 3 / 2, radj := 3 / 2, mi := 1, mj := 1, fri := false, frj := false }

def exCfgTor : Config :=
  { kn := 2, kt := 1, gamman := 0, gammat := 0, xmu := 10, t := 0, c := 0
    enlargeFactor := 1, dt := 1 }

def exCtxTor : Ctx := { M := exM, cfg := exCfgTor, inp := exInpTor }

/-- A settings call with both `NULL` defaults and damping enabled. -/
def exVals : SettingsVals :=
  { kn := 7, ktArg := none, gamman := 4, gammatArg := none, xmu := 3
    dampflag := 1, t := 1, c := 1, enlargeFactor := 2 }

/-! ## Helper lemmas -/

theorem setSymB_ab (T : Nat → Nat → Bool) (p q : Nat) (v : Bool) :
    setSymB T p q v p q = v := by
  simp [setSymB]

theorem setSymB_ba (T : Nat → Nat → Bool) (p q : Nat) (v : Bool) :
    setSymB T p q v q p = v := by
  simp [setSymB]

theorem setSymQ_ab (T : Nat → Nat → ℚ) (p q : Nat) (v : ℚ) :
    setSymQ T p q v p q = v := by
  simp [setSymQ]

theorem setSymQ_ba (T : Nat → Nat → ℚ) (p q : Nat) (v : ℚ) :
    setSymQ T p q v q p = v := by
  simp [setSymQ]

theorem setSymB_false_mono (T : Nat → Nat → Bool) (p q a b : Nat)
    (h : setSymB T p q false a b = true) : T a b = true := by
  unfold setSymB at h
  split at h
  · exact absurd h (by simp)
  · exact h

theorem unbond_coh_mono (gs : GState) (p q a b : Nat)
    (h : (unbond gs p q).coh a b = true) : gs.coh a b = true :=
  setSymB_false_mono gs.coh p q a b h

theorem preSep_gs (c : Ctx) (gs : GState) (sl : Slot) (ign : Bool) :
    (preSep c gs sl ign).gs = gs := by
  unfold preSep
  split <;> rfl

theorem preSep_h5 (c : Ctx) (gs : GState) (sl : Slot) (ign : Bool) :
    (preSep c gs sl ign).sl.h5 = sl.h5 := by
  unfold preSep
  split <;> rfl

theorem preSep_h6 (c : Ctx) (gs : GState) (sl : Slot) (ign : Bool) :
    (preSep c gs sl ign).sl.h6 = sl.h6 := by
  unfold preSep
  split <;> rfl

theorem preForce_gs_cases (c : Ctx) (gs : GState) (sl : Slot) (ign : Bool) :
    (preForce c gs sl ign).gs = gs ∨
      (preForce c gs sl ign).gs = unbond gs (c.inp.id1 - 1) (c.inp.id2 - 1) := by
  unfold preForce
  split
  · split
    · exact Or.inl rfl
    · split
      · exact Or.inr rfl
      · exact Or.inl (preSep_gs c gs sl ign)
  · exact Or.inl (preSep_gs c gs sl ign)

theorem forceEval_gs_cases (c : Ctx) (owns : Bool) (gs : GState) (sl : Slot) :
    (forceEval c owns gs sl).gs = gs ∨
      (forceEval c owns gs sl).gs = unbond gs (c.inp.id1 - 1) (c.inp.id2 - 1) := by
  have hg : (forceEval c owns gs sl).gs
      = if (rescaleOf c gs sl).broke then unbond gs (c.inp.id1 - 1) (c.inp.id2 - 1) else gs := rfl
  rw [hg]
  split
  · exact Or.inr rfl
  · exact Or.inl rfl

theorem computePair_coh_mono (c : Ctx) (owns : Bool) (gs : GState) (sl : Slot) (a b : Nat)
    (h : (computePair c false owns gs sl).gs.coh a b = true) : gs.coh a b = true := by
  have hpre := preForce_gs_cases c gs sl false
  unfold computePair at h
  simp only [Bool.false_eq_true, if_false] at h
  split at h
  · rcases hpre with hg | hg <;> rw [hg] at h
    · exact h
    · exact unbond_coh_mono _ _ _ _ _ h
  · rcases forceEval_gs_cases c owns _ _ with hg | hg <;> rw [hg] at h
    · rcases hpre with hg2 | hg2 <;> rw [hg2] at h
      · exact h
      · exact unbond_coh_mono _ _ _ _ _ h
    · have h3 := unbond_coh_mono _ _ _ _ _ h
      rcases hpre with hg2 | hg2 <;> rw [hg2] at h3
      · exact h3
      · exact unbond_coh_mono _ _ _ _ _ h3

theorem evolve_coh_false (L : List (Ctx × Slot)) (gs : GState) (a b : Nat)
    (h : gs.coh a b = false) : (evolve L gs).coh a b = false := by
  induction L generalizing gs with
  | nil => exact h
  | cons p L ih =>
      show (evolve L ((computePair p.1 false true gs p.2).gs)).coh a b = false
      apply ih
      cases hc : (computePair p.1 false true gs p.2).gs.coh a b
      · rfl
      · have := computePair_coh_mono p.1 true gs p.2 a b hc
        rw [h] at this
        exact absurd this (by simp)

theorem setSymB_symm (T : Nat → Nat → Bool) (p q : Nat) (v : Bool)
    (h : ∀ a b, T a b = T b a) (a b : Nat) :
    setSymB T p q v a b = setSymB T p q v b a := by
  unfold setSymB
  by_cases h1 : (a = p ∧ b = q) ∨ (a = q ∧ b = p)
  · rw [if_pos h1, if_pos (by tauto)]
  · rw [if_neg h1, if_neg (by tauto), h a b]

theorem symmCoh_unbond (gs : GState) (p q : Nat) (h : SymmCoh gs) :
    SymmCoh (unbond gs p q) :=
  fun a b => setSymB_symm gs.coh p q false h a b

theorem symmCoh_formation (c : Ctx) (gs : GState) (sl : Slot) (h : SymmCoh gs) :
    SymmCoh ((formation c gs sl).gs) := by
  unfold formation
  split
  · exact fun a b => setSymB_symm gs.coh _ _ true h a b
  · exact fun a b => setSymB_symm gs.coh _ _ false h a b

theorem symmCoh_preForce (c : Ctx) (gs : GState) (sl : Slot) (ign : Bool) (h : SymmCoh gs) :
    SymmCoh ((preForce c gs sl ign).gs) := by
  rcases preForce_gs_cases c gs sl ign with hg | hg <;> rw [hg]
  · exact h
  · exact symmCoh_unbond gs _ _ h

theorem symmCoh_forceEval (c : Ctx) (owns : Bool) (gs : GState) (sl : Slot) (h : SymmCoh gs) :
    SymmCoh ((forceEval c owns gs sl).gs) := by
  rcases forceEval_gs_cases c owns gs sl with hg | hg <;> rw [hg]
  · exact h
  · exact symmCoh_unbond gs _ _ h

theorem symmCoh_computePair (c : Ctx) (isF owns : Bool) (gs : GState) (sl : Slot)
    (h : SymmCoh gs) : SymmCoh ((computePair c isF owns gs sl).gs) := by
  unfold computePair
  cases isF
  · simp only [Bool.false_eq_true, if_false]
    have hpre := symmCoh_preForce c gs sl false h
    split
    · exact hpre
    · exact symmCoh_forceEval c owns _ _ hpre
  · simp only [if_true]
    have hform := symmCoh_formation c gs sl h
    have hpre := symmCoh_preForce c (formation c gs sl).gs (formation c gs sl).sl
      (formation c gs sl).ign hform
    split
    · exact hpre
    · exact symmCoh_forceEval c owns _ _ hpre



/-! ## Claims -/

/-- C1: During the one-time bond-formation pass (first evaluated
timestep), a candidate pair with distance `r`, radius sum `radsum` and
smaller radius `radmin` is marked bonded iff
`r ≤ radsum + (enlargeFactor - 1) * radmin` (non-strict, so the
boundary case bonds); a bonding pair stores
`initialGap = radsum - r` and
`tensileFailureDistance = π * radmin * tensileStrength / kn` in both
table directions, while a non-bonding pair gets both geometry tables
zeroed, the bond flag false in both directions, and the touch flag
cleared. -/
theorem bond_formation_iff (c : Ctx) (gs : GState) (sl : Slot)
    (_hr0 : 0 ≤ c.r) (_hrsq : c.r * c.r = c.rsq) :
    (((formation c gs sl).gs.coh (c.inp.id1 - 1) (c.inp.id2 - 1) = true) ↔
        c.r ≤ c.radsum + (c.cfg.enlargeFactor - 1) * c.radmin) ∧
    (c.r ≤ c.radsum + (c.cfg.enlargeFactor - 1) * c.radmin →
      (formation c gs sl).gs.coh (c.inp.id2 - 1) (c.inp.id1 - 1) = true ∧
      (formation c gs sl).gs.Din (c.inp.id1 - 1) (c.inp.id2 - 1) = c.radsum - c.r ∧
      (formation c gs sl).gs.Din (c.inp.id2 - 1) (c.inp.id1 - 1) = c.radsum - c.r ∧
      (formation c gs sl).gs.Dtn (c.inp.id1 - 1) (c.inp.id2 - 1)
        = c.M.piv * c.radmin * c.cfg.t / c.cfg.kn ∧
      (formation c gs sl).gs.Dtn (c.inp.id2 - 1) (c.inp.id1 - 1)
        = c.M.piv * c.radmin * c.cfg.t / c.cfg.kn ∧
      (formation c gs sl).sl = sl ∧ (formation c gs sl).ign = false) ∧
    (¬ c.r ≤ c.radsum + (c.cfg.enlargeFactor - 1) * c.radmin →
      (formation c gs sl).gs.coh (c.inp.id1 - 1) (c.inp.id2 - 1) = false ∧
      (formation c gs sl).gs.coh (c.inp.id2 - 1) (c.inp.id1 - 1) = false ∧
      (formation c gs sl).gs.Din (c.inp.id1 - 1) (c.inp.id2 - 1) = 0 ∧
      (formation c gs sl).gs.Din (c.inp.id2 - 1) (c.inp.id1 - 1) = 0 ∧
      (formation c gs sl).gs.Dtn (c.inp.id1 - 1) (c.inp.id2 - 1) = 0 ∧
      (formation c gs sl).gs.Dtn (c.inp.id2 - 1) (c.inp.id1 - 1) = 0 ∧
      (formation c gs sl).sl.touch = false ∧ (formation c gs sl).ign = true) := by
  by_cases h : c.r ≤ c.radsum + (c.cfg.enlargeFactor - 1) * c.radmin <;>
    simp [formation, h, setSymB_ab, setSymB_ba, setSymQ_ab, setSymQ_ba]

/-- Witness for `bond_formation_iff`: two unit-radius particles exactly
at the enlarged threshold distance `5/2` (the boundary case) do bond. -/
theorem bond_formation_iff_witness :
    (0 ≤ Ctx.r exCtxForm ∧ Ctx.r exCtxForm * Ctx.r exCtxForm = Ctx.rsq exCtxForm ∧
     Ctx.r exCtxForm
       = Ctx.radsum exCtxForm + (exCtxForm.cfg.enlargeFactor - 1) * Ctx.radmin exCtxForm) ∧
    (formation exCtxForm exGsEmpty exSlZero).gs.coh 0 1 = true :=
  ⟨by norm_num [Ctx.r, Ctx.rsq, Ctx.del, Ctx.radsum, Ctx.radmin, Vec3.dot, Vec3.sub,
      exCtxForm, exM, exInpForm, exCfgForm, sqrtTable, Vec3.zero],
   ((bond_formation_iff exCtxForm exGsEmpty exSlZero
      (by norm_num [Ctx.r, Ctx.rsq, Ctx.del, Vec3.dot, Vec3.sub, exCtxForm, exM, exInpForm,
        sqrtTable, Vec3.zero])
      (by norm_num [Ctx.r, Ctx.rsq, Ctx.del, Vec3.dot, Vec3.sub, exCtxForm, exM, exInpForm,
        sqrtTable, Vec3.zero])).1).mpr
    (by norm_num [Ctx.r, Ctx.rsq, Ctx.del, Ctx.radsum, Ctx.radmin, Vec3.dot, Vec3.sub,
        exCtxForm, exM, exInpForm, exCfgForm, sqrtTable, Vec3.zero])⟩

/-- C5: `init_style` allocates 7 scalars per neighbor slot
(`dnum = 7`, line 519), and the comment at lines 189-190 assigns
offsets 5 and 6 of a slot to that slot's own break counters — so
distinct slots are intended to own disjoint 7-wide records.  But
`compute` addresses slot `jj` at flat offset `3*jj` (line 189), so
offsets 5 and 6 of slot `jj` land at flat addresses `3*jj+5` and
`3*jj+6`, inside the window `3*(jj+1) .. 3*(jj+1)+6` addressed through
slot `jj+1` — offset `5` is exactly slot `jj+1`'s third shear
component.  Under the allocated 7-wide layout the same offsets would
not collide. -/
theorem history_slot_aliasing :
    historyAddr 0 5 = historyAddr 1 2 ∧
    historyAddr 0 6 = historyAddr 1 3 ∧
    historyAddr 1 0 - historyAddr 0 0 = 3 ∧
    slotAllocSize = 7 ∧
    allocAddr 0 5 ≠ allocAddr 1 2 ∧ allocAddr 0 6 ≠ allocAddr 1 3 := by
  decide

/-- C8: bond-flag symmetry is preserved by every per-pair evaluation,
with or without the formation pass: if the cohesion table is symmetric
before `computePair`, it is symmetric afterwards. -/
theorem coh_symm_preserved (c : Ctx) (isF owns : Bool) (gs : GState) (sl : Slot)
    (hsym : ∀ a b, gs.coh a b = gs.coh b a) :
    ∀ a b, (computePair c isF owns gs sl).gs.coh a b
      = (computePair c isF owns gs sl).gs.coh b a :=
  symmCoh_computePair c isF owns gs sl hsym

/-- Witness for `coh_symm_preserved`: a concrete formation-step run on
the all-false (symmetric) table keeps the two directions equal. -/
theorem coh_symm_preserved_witness :
    (∀ a b, exGsEmpty.coh a b = exGsEmpty.coh b a) ∧
    (computePair exCtxForm true true exGsEmpty exSlZero).gs.coh 0 1
      = (computePair exCtxForm true true exGsEmpty exSlZero).gs.coh 1 0 :=
  ⟨fun _ _ => rfl, coh_symm_preserved exCtxForm true true exGsEmpty exSlZero (fun _ _ => rfl) 0 1⟩

/-- C2: A bonded pair whose stretch `_D` is negative with
`|_D| ≥ _Dtensile` undergoes tensile failure in that evaluation: the
bond flag is cleared in both directions, the tensile-break counter of
the pair record is incremented exactly once, the touch flag is cleared
with the shear history zeroed, the force block is skipped (all outputs
zero), and — since the formation pass runs only on the first timestep —
no later non-formation evaluation can ever set the bond flag back, for
any sequence of later inputs. -/
theorem tensile_failure_permanent (c : Ctx) (owns : Bool) (gs : GState) (sl : Slot)
    (hcoh : gs.coh (c.inp.id1 - 1) (c.inp.id2 - 1) = true)
    (hneg : DOf c gs < 0)
    (hfail : |DOf c gs| ≥ gs.Dtn (c.inp.id1 - 1) (c.inp.id2 - 1)) :
    (computePair c false owns gs sl).gs.coh (c.inp.id1 - 1) (c.inp.id2 - 1) = false ∧
    (computePair c false owns gs sl).gs.coh (c.inp.id2 - 1) (c.inp.id1 - 1) = false ∧
    (computePair c false owns gs sl).sl.h5 = sl.h5 + 1 ∧
    (computePair c false owns gs sl).sl.touch = false ∧
    (computePair c false owns gs sl).sl.s0 = 0 ∧
    (computePair c false owns gs sl).sl.s1 = 0 ∧
    (computePair c false owns gs sl).sl.s2 = 0 ∧
    (computePair c false owns gs sl).out = ignoredOut ∧
    ∀ L : List (Ctx × Slot),
      (evolve L (computePair c false owns gs sl).gs).coh
        (c.inp.id1 - 1) (c.inp.id2 - 1) = false := by
  have hco : ¬ (gs.coh (c.inp.id1 - 1) (c.inp.id2 - 1) = false) := by
    rw [hcoh]; intro h; exact Bool.noConfusion h
  have hps : preSep c gs sl false = ⟨gs, sl, false⟩ := by
    unfold preSep
    rw [if_neg]
    rintro ⟨h1, -⟩
    exact hco h1
  have hpf : preForce c gs sl false =
      ⟨unbond gs (c.inp.id1 - 1) (c.inp.id2 - 1),
       { sl with s0 := 0, s1 := 0, s2 := 0, h5 := sl.h5 + 1, touch := false }, true⟩ := by
    unfold preForce
    rw [if_pos hneg, if_neg hco, if_pos hfail, hps]
  have hcp : computePair c false owns gs sl =
      ⟨unbond gs (c.inp.id1 - 1) (c.inp.id2 - 1),
       { sl with s0 := 0, s1 := 0, s2 := 0, h5 := sl.h5 + 1, touch := false }, ignoredOut⟩ := by
    unfold computePair
    simp only [Bool.false_eq_true, if_false, hpf, if_true, ite_true]
  rw [hcp]
  refine ⟨setSymB_ab _ _ _ _, setSymB_ba _ _ _ _, rfl, rfl, rfl, rfl, rfl, rfl, ?_⟩
  intro L
  exact evolve_coh_false L _ _ _ (setSymB_ab _ _ _ _)

/-- Witness for `tensile_failure_permanent`: a bonded unit-radius pair
pulled to distance 3 (stretch `-1`, tensile limit `1/2`) breaks. -/
theorem tensile_failure_permanent_witness :
    (exGsBonded.coh 0 1 = true ∧ DOf exCtxTens exGsBonded < 0 ∧
     |DOf exCtxTens exGsBonded| ≥ exGsBonded.Dtn 0 1) ∧
    (computePair exCtxTens false true exGsBonded exSlZero).gs.coh 0 1 = false ∧
    (computePair exCtxTens false true exGsBonded exSlZero).sl.h5 = exSlZero.h5 + 1 :=
  ⟨⟨rfl,
    by norm_num [DOf, Ctx.radsum, Ctx.r, Ctx.rsq, Ctx.del, Vec3.dot, Vec3.sub, exCtxTens,
      exM, exInpTens, sqrtTable, exGsBonded, Vec3.zero],
    by norm_num [DOf, Ctx.radsum, Ctx.r, Ctx.rsq, Ctx.del, Vec3.dot, Vec3.sub, exCtxTens,
      exM, exInpTens, sqrtTable, exGsBonded, Vec3.zero]⟩,
   (tensile_failure_permanent exCtxTens true exGsBonded exSlZero rfl
      (by norm_num [DOf, Ctx.radsum, Ctx.r, Ctx.rsq, Ctx.del, Vec3.dot, Vec3.sub, exCtxTens,
        exM, exInpTens, sqrtTable, exGsBonded, Vec3.zero])
      (by norm_num [DOf, Ctx.radsum, Ctx.r, Ctx.rsq, Ctx.del, Vec3.dot, Vec3.sub, exCtxTens,
        exM, exInpTens, sqrtTable, exGsBonded, Vec3.zero])).1,
   (tensile_failure_permanent exCtxTens true exGsBonded exSlZero rfl
      (by norm_num [DOf, Ctx.radsum, Ctx.r, Ctx.rsq, Ctx.del, Vec3.dot, Vec3.sub, exCtxTens,
        exM, exInpTens, sqrtTable, exGsBonded, Vec3.zero])
      (by norm_num [DOf, Ctx.radsum, Ctx.r, Ctx.rsq, Ctx.del, Vec3.dot, Vec3.sub, exCtxTens,
        exM, exInpTens, sqrtTable, exGsBonded, Vec3.zero])).2.2.1⟩

theorem afterPhase_out_cases (c : Ctx) (owns : Bool) (ph : PhaseOut) :
    (if ph.ign then ({ gs := ph.gs, sl := ph.sl, out := ignoredOut } : StepOut)
     else forceEval c owns ph.gs ph.sl).out = ignoredOut ∨
      ∃ gs2 sl2,
        (if ph.ign then ({ gs := ph.gs, sl := ph.sl, out := ignoredOut } : StepOut)
         else forceEval c owns ph.gs ph.sl).out = (forceEval c owns gs2 sl2).out := by
  split
  · exact Or.inl rfl
  · exact Or.inr ⟨_, _, rfl⟩

theorem computePair_out_cases (c : Ctx) (isF owns : Bool) (gs : GState) (sl : Slot) :
    (computePair c isF owns gs sl).out = ignoredOut ∨
      ∃ gs2 sl2, (computePair c isF owns gs sl).out = (forceEval c owns gs2 sl2).out := by
  unfold computePair
  exact afterPhase_out_cases c owns _

/-- C6: whenever the evaluation owns the contribution to `j`
(`newton_pair || j < nlocal`, modelled by `ownsJ = true`), the force
delta accumulated onto particle `j` is exactly the negation of the
delta accumulated onto particle `i`; a skipped pair contributes zero to
both. -/
theorem newton_third_law (c : Ctx) (isF : Bool) (gs : GState) (sl : Slot) :
    (computePair c isF true gs sl).out.fj = -((computePair c isF true gs sl).out.fi) := by
  rcases computePair_out_cases c isF true gs sl with h | ⟨gs2, sl2, h⟩ <;> rw [h]
  · show Vec3.zero = -Vec3.zero
    show Vec3.zero = (⟨-0, -0, -0⟩ : Vec3)
    norm_num [Vec3.zero]
  · rfl

/-- C7 (amended): both torque deltas have the same sign: particle `i`
receives `-radi * (del × Fs)/r` and particle `j` receives
`-radj * (del × Fs)/r` — the code applies `torque[..] -= rad * tor` to
both particles — so `radj`-scaled `ti` equals `radi`-scaled `tj`
rather than its negation. -/
theorem torque_own_radius_same_sign (c : Ctx) (gs : GState) (sl : Slot) :
    (forceEval c true gs sl).out.ti
      = Vec3.smul (-(c.inp.radi)) (torVec c ((forceEval c true gs sl).out.fs)) ∧
    (forceEval c true gs sl).out.tj
      = Vec3.smul (-(c.inp.radj)) (torVec c ((forceEval c true gs sl).out.fs)) ∧
    Vec3.smul c.inp.radj ((forceEval c true gs sl).out.ti)
      = Vec3.smul c.inp.radi ((forceEval c true gs sl).out.tj) := by
  have h1 : (forceEval c true gs sl).out.fs = (rescaleOf c gs sl).fsv := rfl
  rw [h1]
  refine ⟨?_, ?_, ?_⟩
  · show (⟨-(c.inp.radi * (torVec c (rescaleOf c gs sl).fsv).x),
          -(c.inp.radi * (torVec c (rescaleOf c gs sl).fsv).y),
          -(c.inp.radi * (torVec c (rescaleOf c gs sl).fsv).z)⟩ : Vec3)
        = Vec3.smul (-(c.inp.radi)) (torVec c (rescaleOf c gs sl).fsv)
    simp only [Vec3.smul, Vec3.mk.injEq]
    refine ⟨by ring, by ring, by ring⟩
  · show (⟨-(c.inp.radj * (torVec c (rescaleOf c gs sl).fsv).x),
          -(c.inp.radj * (torVec c (rescaleOf c gs sl).fsv).y),
          -(c.inp.radj * (torVec c (rescaleOf c gs sl).fsv).z)⟩ : Vec3)
        = Vec3.smul (-(c.inp.radj)) (torVec c (rescaleOf c gs sl).fsv)
    simp only [Vec3.smul, Vec3.mk.injEq]
    refine ⟨by ring, by ring, by ring⟩
  · show Vec3.smul c.inp.radj
        (⟨-(c.inp.radi * (torVec c (rescaleOf c gs sl).fsv).x),
          -(c.inp.radi * (torVec c (rescaleOf c gs sl).fsv).y),
          -(c.inp.radi * (torVec c (rescaleOf c gs sl).fsv).z)⟩ : Vec3)
        = Vec3.smul c.inp.radi
        (⟨-(c.inp.radj * (torVec c (rescaleOf c gs sl).fsv).x),
          -(c.inp.radj * (torVec c (rescaleOf c gs sl).fsv).y),
          -(c.inp.radj * (torVec c (rescaleOf c gs sl).fsv).z)⟩ : Vec3)
    simp only [Vec3.smul, Vec3.mk.injEq]
    refine ⟨by ring, by ring, by ring⟩

/-- C7 counterexample: for an evaluated contact of two equal-radius
(`3/2`) particles with tangential force `(0,-1,0)` and separation along
`x`, the code applies the torque delta `(0,0,3/2)` to BOTH particles
(`torque[i] -= radi*tor` and `torque[j] -= radj*tor`, same sign), so the
delta on `j` is not the opposite sign of the delta on `i`. -/
theorem torque_opposite_sign_counterexample :
    (computePair exCtxTor false true exGsEmpty exSlShear).out.ti = ⟨0, 0, 3 / 2⟩ ∧
    (computePair exCtxTor false true exGsEmpty exSlShear).out.tj = ⟨0, 0, 3 / 2⟩ ∧
    ¬ ((computePair exCtxTor false true exGsEmpty exSlShear).out.tj
        = -((computePair exCtxTor false true exGsEmpty exSlShear).out.ti)) := by
  have hti : (computePair exCtxTor false true exGsEmpty exSlShear).out.ti = ⟨0, 0, 3 / 2⟩ := by
    norm_num [computePair, formation, preForce, preSep, DOf, forceEval, rescaleOf, rescaleStep,
      torVec, fnOf, fsMagOf, fsPreV, shearRot, rshtOf, shrmagOf, shearInt, ccelOf, Ctx.dco,
      Ctx.vtr, Ctx.vt, Ctx.vn, Ctx.vr, Ctx.vnnr, Ctx.wr, Ctx.meff, Ctx.damp, Ctx.del, Ctx.rsq,
      Ctx.r, Ctx.rinv, Ctx.rsqinv, Ctx.radsum, Ctx.radmin, Vec3.dot, Vec3.sub, Vec3.add,
      Vec3.smul, Vec3.zero, sqrtTable, exCtxTor, exM, exInpTor, exCfgTor, exGsEmpty, exSlShear,
      setSymB, setSymQ, unbond, ignoredOut]
  have htj : (computePair exCtxTor false true exGsEmpty exSlShear).out.tj = ⟨0, 0, 3 / 2⟩ := by
    norm_num [computePair, formation, preForce, preSep, DOf, forceEval, rescaleOf, rescaleStep,
      torVec, fnOf, fsMagOf, fsPreV, shearRot, rshtOf, shrmagOf, shearInt, ccelOf, Ctx.dco,
      Ctx.vtr, Ctx.vt, Ctx.vn, Ctx.vr, Ctx.vnnr, Ctx.wr, Ctx.meff, Ctx.damp, Ctx.del, Ctx.rsq,
      Ctx.r, Ctx.rinv, Ctx.rsqinv, Ctx.radsum, Ctx.radmin, Vec3.dot, Vec3.sub, Vec3.add,
      Vec3.smul, Vec3.zero, sqrtTable, exCtxTor, exM, exInpTor, exCfgTor, exGsEmpty, exSlShear,
      setSymB, setSymQ, unbond, ignoredOut]
  refine ⟨hti, htj, ?_⟩
  rw [hti, htj]
  intro h
  have h3 : (3 / 2 : ℚ) = -(3 / 2) := congrArg Vec3.z h
  norm_num at h3

/-- C9: when the pre-rescale tangential force magnitude `fs` is
strictly below the limit `fn`, the rescaling branch (lines 353-380) is
not taken: the stored shear displacement stays exactly the
integrated-and-rotated value and the tangential force components are
exactly the unrescaled ones; the touch flag stays set and neither
break counter changes. -/
theorem rescale_below_limit_identity (c : Ctx) (owns : Bool) (gs : GState) (sl : Slot)
    (hlt : fsMagOf c sl < fnOf c gs) :
    (forceEval c owns gs sl).sl.s0 = (shearRot c sl).x ∧
    (forceEval c owns gs sl).sl.s1 = (shearRot c sl).y ∧
    (forceEval c owns gs sl).sl.s2 = (shearRot c sl).z ∧
    (forceEval c owns gs sl).out.fs = fsPreV c sl ∧
    (forceEval c owns gs sl).sl.h5 = sl.h5 ∧
    (forceEval c owns gs sl).sl.h6 = sl.h6 ∧
    (forceEval c owns gs sl).sl.touch = true ∧
    (forceEval c owns gs sl).gs = gs := by
  have hR : rescaleOf c gs sl
      = ⟨shearRot c sl, fsPreV c sl, false, false⟩ := by
    unfold rescaleOf rescaleStep
    rw [if_neg (not_le.mpr hlt)]
  unfold forceEval
  rw [hR]
  exact ⟨rfl, rfl, rfl, rfl, rfl, rfl, rfl, rfl⟩

/-- Witness for `rescale_below_limit_identity`: overlapping unbonded
contact with stored shear `(0,1,0)`, `kt = 1`, `xmu = 10`: the force
magnitude `1` is strictly below the Coulomb limit `20`, and the shear
record is left exactly as integrated and rotated. -/
theorem rescale_below_limit_identity_witness :
    (fsMagOf exCtxBelow exSlShear < fnOf exCtxBelow exGsEmpty) ∧
    (forceEval exCtxBelow true exGsEmpty exSlShear).out.fs = fsPreV exCtxBelow exSlShear :=
  ⟨by norm_num [fsMagOf, fnOf, fsPreV, shearRot, rshtOf, shrmagOf, shearInt, ccelOf, DOf,
      Ctx.vtr, Ctx.vt, Ctx.vn, Ctx.vr, Ctx.vnnr, Ctx.wr, Ctx.meff, Ctx.damp, Ctx.del, Ctx.rsq,
      Ctx.r, Ctx.rinv, Ctx.rsqinv, Ctx.radsum, Ctx.radmin, Vec3.dot, Vec3.sub, Vec3.add,
      Vec3.smul, Vec3.zero, sqrtTable, exCtxBelow, exM, exInpShear, exCfgMuTen, exGsEmpty,
      exSlShear],
   (rescale_below_limit_identity exCtxBelow true exGsEmpty exSlShear
      (by norm_num [fsMagOf, fnOf, fsPreV, shearRot, rshtOf, shrmagOf, shearInt, ccelOf, DOf,
        Ctx.vtr, Ctx.vt, Ctx.vn, Ctx.vr, Ctx.vnnr, Ctx.wr, Ctx.meff, Ctx.damp, Ctx.del, Ctx.rsq,
        Ctx.r, Ctx.rinv, Ctx.rsqinv, Ctx.radsum, Ctx.radmin, Vec3.dot, Vec3.sub, Vec3.add,
        Vec3.smul, Vec3.zero, sqrtTable, exCtxBelow, exM, exInpShear, exCfgMuTen, exGsEmpty,
        exSlShear])).2.2.2.1⟩

/-- C4: for an evaluated unbonded pair whose tangential force magnitude
`fs` reaches or exceeds the Coulomb limit `fn = xmu*|ccel*r|`, the
rescaling branch scales the stored shear displacement and the
tangential force by `fn/fs` (bringing the force magnitude exactly to
the limit when `fs` is a genuine magnitude), or zeroes the force when
the shear magnitude is zero; the bond table is untouched (the flag
stays false) and neither break counter changes. -/
theorem unbonded_shear_overload (c : Ctx) (owns : Bool) (gs : GState) (sl : Slot)
    (hcoh : gs.coh (c.inp.id1 - 1) (c.inp.id2 - 1) = false)
    (hge : fsMagOf c sl ≥ fnOf c gs) :
    (forceEval c owns gs sl).gs = gs ∧
    (forceEval c owns gs sl).sl.h5 = sl.h5 ∧
    (forceEval c owns gs sl).sl.h6 = sl.h6 ∧
    (forceEval c owns gs sl).sl.touch = true ∧
    (shrmagOf c sl = 0 → (forceEval c owns gs sl).out.fs = Vec3.zero) ∧
    (shrmagOf c sl ≠ 0 →
      (forceEval c owns gs sl).out.fs
        = ⟨(fsPreV c sl).x * (fnOf c gs / fsMagOf c sl),
           (fsPreV c sl).y * (fnOf c gs / fsMagOf c sl),
           (fsPreV c sl).z * (fnOf c gs / fsMagOf c sl)⟩ ∧
      (forceEval c owns gs sl).sl.s0
        = fnOf c gs / fsMagOf c sl * ((shearRot c sl).x + c.dco.x) - c.dco.x ∧
      (forceEval c owns gs sl).sl.s1
        = fnOf c gs / fsMagOf c sl * ((shearRot c sl).y + c.dco.y) - c.dco.y ∧
      (forceEval c owns gs sl).sl.s2
        = fnOf c gs / fsMagOf c sl * ((shearRot c sl).z + c.dco.z) - c.dco.z) ∧
    (shrmagOf c sl ≠ 0 → fsMagOf c sl ≠ 0 →
      Vec3.dot (fsPreV c sl) (fsPreV c sl) = fsMagOf c sl * fsMagOf c sl →
      Vec3.dot ((forceEval c owns gs sl).out.fs) ((forceEval c owns gs sl).out.fs)
        = fnOf c gs * fnOf c gs) := by
  by_cases hs : shrmagOf c sl ≠ 0
  · have hR : rescaleOf c gs sl =
        ⟨⟨fnOf c gs / fsMagOf c sl * ((shearRot c sl).x + c.dco.x) - c.dco.x,
          fnOf c gs / fsMagOf c sl * ((shearRot c sl).y + c.dco.y) - c.dco.y,
          fnOf c gs / fsMagOf c sl * ((shearRot c sl).z + c.dco.z) - c.dco.z⟩,
         ⟨(fsPreV c sl).x * (fnOf c gs / fsMagOf c sl),
          (fsPreV c sl).y * (fnOf c gs / fsMagOf c sl),
          (fsPreV c sl).z * (fnOf c gs / fsMagOf c sl)⟩, false, false⟩ := by
      unfold rescaleOf rescaleStep
      rw [hcoh]
      rw [if_pos hge, if_pos hs, if_pos hs]
      simp only [Bool.false_eq_true, if_false]
    unfold forceEval
    rw [hR]
    refine ⟨rfl, rfl, rfl, rfl, fun h0 => absurd h0 hs, fun _ => ⟨rfl, rfl, rfl, rfl⟩, ?_⟩
    intro _ hfs hdot
    show ((fsPreV c sl).x * (fnOf c gs / fsMagOf c sl)) * ((fsPreV c sl).x * (fnOf c gs / fsMagOf c sl))
        + ((fsPreV c sl).y * (fnOf c gs / fsMagOf c sl)) * ((fsPreV c sl).y * (fnOf c gs / fsMagOf c sl))
        + ((fsPreV c sl).z * (fnOf c gs / fsMagOf c sl)) * ((fsPreV c sl).z * (fnOf c gs / fsMagOf c sl))
        = fnOf c gs * fnOf c gs
    have hstep :
        ((fsPreV c sl).x * (fnOf c gs / fsMagOf c sl)) * ((fsPreV c sl).x * (fnOf c gs / fsMagOf c sl))
        + ((fsPreV c sl).y * (fnOf c gs / fsMagOf c sl)) * ((fsPreV c sl).y * (fnOf c gs / fsMagOf c sl))
        + ((fsPreV c sl).z * (fnOf c gs / fsMagOf c sl)) * ((fsPreV c sl).z * (fnOf c gs / fsMagOf c sl))
        = (fnOf c gs / fsMagOf c sl) * (fnOf c gs / fsMagOf c sl) * Vec3.dot (fsPreV c sl) (fsPreV c sl) := by
      unfold Vec3.dot
      ring
    rw [hstep, hdot]
    field_simp
  · have hs0 : shrmagOf c sl = 0 := not_not.mp hs
    have hR : rescaleOf c gs sl = ⟨shearRot c sl, Vec3.zero, false, false⟩ := by
      unfold rescaleOf rescaleStep
      rw [hcoh]
      rw [if_pos hge, if_neg hs, if_neg hs]
      simp only [Bool.false_eq_true, if_false]
    unfold forceEval
    rw [hR]
    exact ⟨rfl, rfl, rfl, rfl, fun _ => rfl, fun h => absurd hs0 h, fun h => absurd hs0 h⟩

/-- Witness for `unbonded_shear_overload`: with `xmu = 0` the limit is
`0`, the stored shear `(0,1,0)` gives `fs = 1 ≥ 0`, and the force is
rescaled to the limit while flags and counters are untouched. -/
theorem unbonded_shear_overload_witness :
    (exGsEmpty.coh 0 1 = false ∧ fsMagOf exCtxOver exSlShear ≥ fnOf exCtxOver exGsEmpty) ∧
    (forceEval exCtxOver true exGsEmpty exSlShear).sl.h6 = exSlShear.h6 :=
  ⟨⟨rfl,
    by norm_num [fsMagOf, fnOf, fsPreV, shearRot, rshtOf, shrmagOf, shearInt, ccelOf, DOf,
      Ctx.vtr, Ctx.vt, Ctx.vn, Ctx.vr, Ctx.vnnr, Ctx.wr, Ctx.meff, Ctx.damp, Ctx.del, Ctx.rsq,
      Ctx.r, Ctx.rinv, Ctx.rsqinv, Ctx.radsum, Ctx.radmin, Vec3.dot, Vec3.sub, Vec3.add,
      Vec3.smul, Vec3.zero, sqrtTable, exCtxOver, exM, exInpShear, exCfgMuZero, exGsEmpty,
      exSlShear]⟩,
   (unbonded_shear_overload exCtxOver true exGsEmpty exSlShear rfl
      (by norm_num [fsMagOf, fnOf, fsPreV, shearRot, rshtOf, shrmagOf, shearInt, ccelOf, DOf,
        Ctx.vtr, Ctx.vt, Ctx.vn, Ctx.vr, Ctx.vnnr, Ctx.wr, Ctx.meff, Ctx.damp, Ctx.del, Ctx.rsq,
        Ctx.r, Ctx.rinv, Ctx.rsqinv, Ctx.radsum, Ctx.radmin, Vec3.dot, Vec3.sub, Vec3.add,
        Vec3.smul, Vec3.zero, sqrtTable, exCtxOver, exM, exInpShear, exCfgMuZero, exGsEmpty,
        exSlShear])).2.2.1⟩

/-- C3 counterexample: a pair with coincident centers (`rsq = 0`,
`r = sqrt(0) = 0`) that bonds during the formation pass reaches the
force-evaluation block — no branch guard preempts it — so the code
computes `rinv = 1.0/r` and `rsqinv = 1.0/rsq` with zero divisors. -/
theorem zero_distance_reaches_force_eval :
    (computePair exCtxZero true true exGsEmpty exSlZero).out.evaluated = true ∧
    Ctx.r exCtxZero = 0 ∧ Ctx.rsq exCtxZero = 0 := by
  refine ⟨?_, ?_, ?_⟩
  · norm_num [computePair, formation, preForce, preSep, DOf, forceEval, rescaleOf, rescaleStep,
      torVec, fnOf, fsMagOf, fsPreV, shearRot, rshtOf, shrmagOf, shearInt, ccelOf, Ctx.dco,
      Ctx.vtr, Ctx.vt, Ctx.vn, Ctx.vr, Ctx.vnnr, Ctx.wr, Ctx.meff, Ctx.damp, Ctx.del, Ctx.rsq,
      Ctx.r, Ctx.rinv, Ctx.rsqinv, Ctx.radsum, Ctx.radmin, Vec3.dot, Vec3.sub, Vec3.add,
      Vec3.smul, Vec3.zero, sqrtTable, exCtxZero, exM, exInpZero, exCfgZero, exGsEmpty,
      exSlZero, setSymB, setSymQ, unbond, ignoredOut]
  · norm_num [Ctx.r, Ctx.rsq, Ctx.del, Vec3.dot, Vec3.sub, exCtxZero, exM, exInpZero,
      sqrtTable, Vec3.zero]
  · norm_num [Ctx.rsq, Ctx.del, Vec3.dot, Vec3.sub, exCtxZero, exInpZero, Vec3.zero]

/-- C3 (amended): the only division guard in the force block is the
`shrmag != 0` test of the rescaling branch: when `shrmag == 0` the
branch takes the explicit zero-force fallback (`fs1 = fs2 = fs3 = 0`)
instead of dividing `fn/fs`; the divisions `1.0/r` and `1.0/rsq` have
no such guard (a coincident-center pair still reaches them). -/
theorem rescale_zero_shrmag_fallback (cohes : Bool) (rsq radsum fn fs : ℚ) (a f d : Vec3)
    (hge : fs ≥ fn) :
    (rescaleStep cohes rsq radsum 0 fn fs a f d).fsv = Vec3.zero := by
  unfold rescaleStep
  rw [if_pos hge]
  rw [if_neg (show ¬(0 : ℚ) ≠ 0 by norm_num), if_neg (show ¬(0 : ℚ) ≠ 0 by norm_num)]
  split
  · split <;> rfl
  · rfl

/-- Witness for `rescale_zero_shrmag_fallback`: a concrete overloaded
rescale with zero shear magnitude yields the zero tangential force. -/
theorem rescale_zero_shrmag_fallback_witness :
    ((1 : ℚ) ≥ 0) ∧
    (rescaleStep false 1 1 0 0 1 ⟨1, 2, 3⟩ ⟨4, 5, 6⟩ ⟨0, 0, 0⟩).fsv = Vec3.zero :=
  ⟨by norm_num,
   rescale_zero_shrmag_fallback false 1 1 0 1 ⟨1, 2, 3⟩ ⟨4, 5, 6⟩ ⟨0, 0, 0⟩ (by norm_num)⟩

/-- C10: `settings` accepts a configuration iff exactly nine arguments
are supplied and — after the `NULL` defaults and the
`dampflag == 0 → gammat = 0` zeroing — `kn`, `kt`, `gamman`, `gammat`,
`_t`, `_c`, `_enlargeFactor` are non-negative, `xmu ∈ [0, 10000]` and
the damping flag is `0` or `1`; on success `kt` is the supplied value
or `kn * 2/7` when `NULL`, `gammat` is the supplied value or
`0.5 * gamman` when `NULL`, and `dampflag = 0` forces the stored
`gammat` to exactly `0`. -/
theorem settings_accept_iff (narg : Nat) (v : SettingsVals) :
    ((settingsRun narg v).isSome = true ↔
      (narg = 9 ∧ 0 ≤ v.kn ∧ 0 ≤ ktEff v ∧ 0 ≤ v.gamman ∧ 0 ≤ gtEff v ∧
       0 ≤ v.xmu ∧ v.xmu ≤ 10000 ∧ (v.dampflag = 0 ∨ v.dampflag = 1) ∧
       0 ≤ v.t ∧ 0 ≤ v.c ∧ 0 ≤ v.enlargeFactor)) ∧
    ∀ s, settingsRun narg v = some s →
      s.kt = ktEff v ∧ s.gammat = gtEff v ∧
      (v.ktArg = none → s.kt = v.kn * 2 / 7) ∧
      (v.gammatArg = none → v.dampflag ≠ 0 → s.gammat = 1 / 2 * v.gamman) ∧
      (v.dampflag = 0 → s.gammat = 0) := by
  constructor
  · unfold settingsRun
    by_cases hn : narg = 9
    · rw [if_neg (not_not_intro hn)]
      by_cases hb : (v.kn < 0 ∨ ktEff v < 0 ∨ v.gamman < 0 ∨ gtEff v < 0 ∨
          v.xmu < 0 ∨ v.xmu > 10000 ∨ v.dampflag < 0 ∨ v.c < 0 ∨ v.t < 0 ∨
          v.enlargeFactor < 0 ∨ v.dampflag > 1)
      · rw [if_pos hb]
        constructor
        · intro h
          exact absurd h (by simp)
        · rintro ⟨-, h1, h2, h3, h4, h5, h6, h7, h8, h9, h10⟩
          exfalso
          rcases hb with hb | hb | hb | hb | hb | hb | hb | hb | hb | hb | hb
          · exact absurd h1 (not_le.mpr hb)
          · exact absurd h2 (not_le.mpr hb)
          · exact absurd h3 (not_le.mpr hb)
          · exact absurd h4 (not_le.mpr hb)
          · exact absurd h5 (not_le.mpr hb)
          · exact absurd h6 (not_le.mpr hb)
          · omega
          · exact absurd h9 (not_le.mpr hb)
          · exact absurd h8 (not_le.mpr hb)
          · exact absurd h10 (not_le.mpr hb)
          · omega
      · rw [if_neg hb]
        constructor
        · intro _
          push_neg at hb
          obtain ⟨h1, h2, h3, h4, h5, h6, h7, h8, h9, h10, h11⟩ := hb
          exact ⟨hn, h1, h2, h3, h4, h5, h6, by omega, h9, h8, h10⟩
        · intro _
          rfl
    · rw [if_pos hn]
      constructor
      · intro h
        exact absurd h (by simp)
      · rintro ⟨h9, -⟩
        exact absurd h9 hn
  · intro s hs
    unfold settingsRun at hs
    by_cases hn : narg = 9
    · rw [if_neg (not_not_intro hn)] at hs
      by_cases hb : (v.kn < 0 ∨ ktEff v < 0 ∨ v.gamman < 0 ∨ gtEff v < 0 ∨
          v.xmu < 0 ∨ v.xmu > 10000 ∨ v.dampflag < 0 ∨ v.c < 0 ∨ v.t < 0 ∨
          v.enlargeFactor < 0 ∨ v.dampflag > 1)
      · rw [if_pos hb] at hs
        exact absurd hs (by simp)
      · rw [if_neg hb] at hs
        have hrec := Option.some.inj hs
        rw [← hrec]
        refine ⟨rfl, rfl, ?_, ?_, ?_⟩
        · intro hkt
          show ktEff v = v.kn * 2 / 7
          simp [ktEff, hkt]
        · intro hgt hd
          show gtEff v = 1 / 2 * v.gamman
          simp [gtEff, hgt, hd]
        · intro hd
          show gtEff v = 0
          simp [gtEff, hd]
    · rw [if_pos hn] at hs
      exact absurd hs (by simp)

/-- Witness for `settings_accept_iff`: nine arguments with `NULL` for
`kt` and `gammat`, `dampflag = 1`, all ranges satisfied — accepted. -/
theorem settings_accept_iff_witness : (settingsRun 9 exVals).isSome = true :=
  ((settings_accept_iff 9 exVals).1).mpr
    (by norm_num [ktEff, gtEff, exVals])
